import Mathlib

/-!
Verification of the analytics computation pipeline of the marketing-CLV
dashboard: cohort retention, RFM scoring and segmentation, scenario-adjusted
KPI simulation, and the overview KPI summary.

Conventions of the shallow embedding:
* a transaction row is a `Txn`; dates are integer day numbers and months are
  absolute month indices (year * 12 + month), so pandas `Period` subtraction
  `(inv - acq).n` is plain integer subtraction;
* monetary amounts are exact rationals (`ℚ`);
* the IEEE `NaN` produced by numpy division by zero is modelled as `none` in
  `Option ℚ`, and its propagation through arithmetic as `Option.bind`/`map`;
* a pandas exception (`ValueError` from `qcut`, `KeyError` from a missing
  column) is modelled as `Except.error` with a `PdError` tag.
-/

/-- Errors raised by the pandas calls that the embedded code performs:
`valueError` stands for the qcut message about bin labels having to be one
fewer than the number of bin edges, `keyError` for access to an absent
column. -/
inductive PdError where
  | valueError
  | keyError
deriving DecidableEq, Repr

/-- Transaction row of the cleaned dataset (`online_retail_II_clean_scenario.csv`).
Presentation-only columns (country, description, stock code) are omitted; the
quantity and unit price only matter for the load-time fallback, which is
modelled separately on `RawFrame`. -/
structure Txn where
  customerId : ℕ
  invoiceNo : ℕ
  invoiceDate : ℤ
  invoiceMonth : ℤ
  acquisitionMonth : ℤ
  amountNet : ℚ
  isReturn : Bool
deriving DecidableEq, Repr

/-- Insertion of an element into a list, keeping it sorted. -/
def insertLe {α : Type} [LinearOrder α] (x : α) : List α → List α
  | [] => [x]
  | y :: ys => if x ≤ y then x :: y :: ys else y :: insertLe x ys

/-- Insertion sort, used to model the sorted group keys that pandas
`groupby` produces and the sorted values that `qcut` quantiles use. -/
def sortLe {α : Type} [LinearOrder α] : List α → List α
  | [] => []
  | x :: xs => insertLe x (sortLe xs)

/-- Maximum of a list of integers (the pandas `.max()` of a nonempty
column); junk value 0 on the empty list, which no claim exercises. -/
def listMaxZ : List ℤ → ℤ
  | [] => 0
  | x :: xs => xs.foldl max x

/-- Minimum of a list of integers (the pandas `.min()` of a nonempty
column); junk value 0 on the empty list. -/
def listMinZ : List ℤ → ℤ
  | [] => 0
  | x :: xs => xs.foldl min x

/-- Distinct customer ids in groupby key order (pandas sorts group keys). -/
def custIds (txs : List Txn) : List ℕ :=
  sortLe (txs.map (·.customerId)).dedup

/-- Sum of `AmountNet` over the rows of one customer
(`groupby CustomerID AmountNet sum`). -/
def custSum (txs : List Txn) (c : ℕ) : ℚ :=
  ((txs.filter (fun t => t.customerId = c)).map (·.amountNet)).sum

namespace Scenario

/-- Slider parameters of the scenario page (`marge_pct`, `discount_pct`,
`retention_pct`). -/
structure Params where
  margePct : ℚ
  discountPct : ℚ
  retentionPct : ℚ
deriving DecidableEq, Repr

/-- Per-customer sums of `AmountNet`
(`df_sim.groupby CustomerID AmountNet sum`). -/
def groupSums (txs : List Txn) : List ℚ :=
  (custIds txs).map (custSum txs)

/-- Baseline CLV: mean of the per-customer sums. The pandas mean of an empty
groupby result is NaN, modelled as `none`. -/
def clvBaseline (txs : List Txn) : Option ℚ :=
  if custIds txs = [] then none
  else some ((groupSums txs).sum / ((groupSums txs).length : ℚ))

/-- Baseline revenue: total of `AmountNet` over the subset. -/
def caBaseline (txs : List Txn) : ℚ :=
  (txs.map (·.amountNet)).sum

/-- Baseline transactional retention: share of rows that are not returns.
On zero rows numpy evaluates 0 / 0 to NaN (with only a warning), modelled
as `none`. -/
def retentionBaseline (txs : List Txn) : Option ℚ :=
  if txs.length = 0 then none
  else some ((txs.countP (fun t => !t.isReturn) : ℚ) / (txs.length : ℚ))

/-- Scenario adjustment of one net amount:
`AmountNet * (1 + marge_pct/100) * (1 - discount_pct/100)`. -/
def amountAdj (p : Params) (x : ℚ) : ℚ :=
  x * (1 + p.margePct / 100) * (1 - p.discountPct / 100)

/-- Row with the adjusted amount (column `AmountNet_adj`). -/
def adjTxn (p : Params) (t : Txn) : Txn :=
  { t with amountNet := amountAdj p t.amountNet }

/-- Scenario retention for a given baseline value `rb`:
`min (rb * (1 + retention_pct/100)) 1`, exactly the two source lines
(multiply, then clamp at 1; no clamp below). -/
def retentionScenario (rb pct : ℚ) : ℚ :=
  min (rb * (1 + pct / 100)) 1

/-- Ratio `retention_scenario / retention_baseline` applied to both scenario
KPIs. When the baseline is NaN, or is 0 (all rows are returns, giving
numpy 0 / 0), the ratio is NaN, modelled as `none`. -/
def retentionFactor (p : Params) (txs : List Txn) : Option ℚ :=
  match retentionBaseline txs with
  | none => none
  | some rb => if rb = 0 then none else some (retentionScenario rb p.retentionPct / rb)

/-- Scenario CLV: mean of per-customer sums of the adjusted amounts, then
multiplied by the retention factor; NaN propagates. -/
def clvScenario (p : Params) (txs : List Txn) : Option ℚ :=
  (clvBaseline (txs.map (adjTxn p))).bind fun c =>
    (retentionFactor p txs).map fun r => c * r

/-- Scenario revenue: total of adjusted amounts, then multiplied by the
retention factor; NaN propagates. -/
def caScenario (p : Params) (txs : List Txn) : Option ℚ :=
  (retentionFactor p txs).map fun r => caBaseline (txs.map (adjTxn p)) * r

/-- Zero-valued sliders. -/
def zeroParams : Params := ⟨0, 0, 0⟩

end Scenario

namespace Segments

/-- Snapshot date of the RFM computation: max invoice date plus one day. -/
def snapshotDate (txs : List Txn) : ℤ :=
  listMaxZ (txs.map (·.invoiceDate)) + 1

/-- Recency of one customer: days between the snapshot date and the last
invoice date of that customer. -/
def recency (txs : List Txn) (c : ℕ) : ℤ :=
  snapshotDate txs -
    listMaxZ ((txs.filter (fun t => t.customerId = c)).map (·.invoiceDate))

/-- Frequency of one customer: number of distinct invoice identifiers
(pandas `nunique` on `InvoiceNo`). -/
def frequency (txs : List Txn) (c : ℕ) : ℕ :=
  ((txs.filter (fun t => t.customerId = c)).map (·.invoiceNo)).dedup.length

/-- Monetary of one customer: sum of net amounts. -/
def monetary (txs : List Txn) (c : ℕ) : ℚ :=
  custSum txs c

/-- Customers kept for scoring: those with positive monetary value, in
groupby key order. -/
def positiveCustomers (txs : List Txn) : List ℕ :=
  (custIds txs).filter (fun c => 0 < monetary txs c)

/-- Quantile of the sorted values at level k / 5, with the linear
interpolation numpy uses: position `h = (k/5) * (n-1)`, lower index
`i = floor h` and fraction `h - i`. Because the level is always a multiple
of one fifth and `h` is nonnegative, the index is the natural division
`k*(n-1) / 5` and the fraction is `(k*(n-1) mod 5) / 5`. -/
def quantileK (ys : List ℚ) (k : ℕ) : ℚ :=
  let n := ys.length
  if n = 0 then 0
  else
    let pos := k * (n - 1)
    let i := pos / 5
    let r := pos % 5
    if i + 1 < n then
      ys.getD i 0 + ((r : ℚ) / 5) * (ys.getD (i + 1) 0 - ys.getD i 0)
    else ys.getD (n - 1) 0

/-- Bin edges of `pd.qcut(xs, 5, duplicates = drop)`: the six quantiles at
levels 0, 1/5, ..., 1, with duplicate edges dropped (the pandas
`algos.unique`; the list is nondecreasing, so dedup keeps the sorted set). -/
def qcutEdges (xs : List ℚ) : List ℚ :=
  ((List.range 6).map (quantileK (sortLe xs))).dedup

/-- Numpy `searchsorted` with side left: index of the first edge that is
not below `v`, i.e. the count of edges strictly below `v`. -/
def searchLeft (bins : List ℚ) (v : ℚ) : ℕ :=
  bins.countP (fun b => b < v)

/-- Bin id of a value (pandas `_bins_to_cuts`): `searchsorted` side left,
with values equal to the lowest edge forced into the first bin
(`include_lowest`), then the label of that bin. -/
def assignBin (bins : List ℚ) (labels : List ℕ) (v : ℚ) : ℕ :=
  let idx := if v = bins.getD 0 0 then 1 else searchLeft bins v
  labels.getD (idx - 1) 0

/-- The `pd.qcut(xs, 5, labels, duplicates = drop)` call of `compute_rfm`:
after duplicate edges are dropped, pandas still checks that the label list
has exactly one fewer entry than the remaining edges and raises a
`ValueError` otherwise; only when the check passes does it return the
per-value labels. -/
def qcut5 (xs : List ℚ) (labels : List ℕ) : Except PdError (List ℕ) :=
  let bins := qcutEdges xs
  if labels.length ≠ bins.length - 1 then Except.error PdError.valueError
  else Except.ok (xs.map (assignBin bins labels))

/-- Pandas `rank(method = first)`: rank by value with ties broken by row
order; the rank of entry `i` is one plus the number of strictly smaller
entries plus the number of equal entries occurring earlier. -/
def rankFirst (xs : List ℚ) : List ℚ :=
  (List.range xs.length).map fun i =>
    (xs.countP (fun y => y < xs.getD i 0) : ℚ) +
      ((xs.take i).countP (fun y => y = xs.getD i 0) : ℚ) + 1

/-- The scoring part of `compute_rfm` (segments page): customers with
positive monetary are scored by three sequential qcut calls on recency
(labels 5 down to 1), ranked frequency and monetary (labels 1 up to 5);
the first call that raises aborts the computation. -/
def computeRfmScored (txs : List Txn) : Except PdError (List (ℕ × ℕ × ℕ)) :=
  let cs := positiveCustomers txs
  match qcut5 (cs.map fun c => ((recency txs c : ℤ) : ℚ)) [5, 4, 3, 2, 1] with
  | Except.error e => Except.error e
  | Except.ok rS =>
    match qcut5 (rankFirst (cs.map fun c => (frequency txs c : ℚ))) [1, 2, 3, 4, 5] with
    | Except.error e => Except.error e
    | Except.ok fS =>
      match qcut5 (cs.map fun c => monetary txs c) [1, 2, 3, 4, 5] with
      | Except.error e => Except.error e
      | Except.ok mS => Except.ok (rS.zip (fS.zip mS))

/-- The ten named segments of `segment_rfm` and the priority table. -/
inductive Segment where
  | champions
  | loyaux
  | potentielsLoyaux
  | nouveaux
  | prometteurs
  | besoinDAttention
  | aRisque
  | hibernants
  | perdus
  | autres
deriving DecidableEq, Repr

/-- The `assign_segment` cascade of `segment_rfm`, transcribed branch by
branch from the if/elif chain of the source. -/
def assignSegment (r f m : ℕ) : Segment :=
  if 4 ≤ r ∧ 4 ≤ f ∧ 4 ≤ m then Segment.champions
  else if 3 ≤ r ∧ 4 ≤ f ∧ 4 ≤ m then Segment.loyaux
  else if 4 ≤ r ∧ 3 ≤ f ∧ 3 ≤ m then Segment.potentielsLoyaux
  else if 4 ≤ r ∧ f ≤ 2 then Segment.nouveaux
  else if 3 ≤ r ∧ f ≤ 2 ∧ 3 ≤ m then Segment.prometteurs
  else if r = 3 ∧ 3 ≤ f ∧ 3 ≤ m then Segment.besoinDAttention
  else if r ≤ 2 ∧ 3 ≤ f ∧ 3 ≤ m then Segment.aRisque
  else if r ≤ 2 ∧ f ≤ 2 ∧ 3 ≤ m then Segment.hibernants
  else if r ≤ 2 ∧ f ≤ 2 ∧ m ≤ 2 then Segment.perdus
  else Segment.autres

/-- Rule table of spec section 4.2, written from the table text: nine
guarded rules in priority order, with `Autres` as the catch-all. -/
def specRules : List ((ℕ → ℕ → ℕ → Bool) × Segment) :=
  [(fun r f m => decide (4 ≤ r) && decide (4 ≤ f) && decide (4 ≤ m), Segment.champions),
   (fun r f m => decide (3 ≤ r) && decide (4 ≤ f) && decide (4 ≤ m), Segment.loyaux),
   (fun r f m => decide (4 ≤ r) && decide (3 ≤ f) && decide (3 ≤ m), Segment.potentielsLoyaux),
   (fun r f _ => decide (4 ≤ r) && decide (f ≤ 2), Segment.nouveaux),
   (fun r f m => decide (3 ≤ r) && decide (f ≤ 2) && decide (3 ≤ m), Segment.prometteurs),
   (fun r f m => decide (r = 3) && decide (3 ≤ f) && decide (3 ≤ m), Segment.besoinDAttention),
   (fun r f m => decide (r ≤ 2) && decide (3 ≤ f) && decide (3 ≤ m), Segment.aRisque),
   (fun r f m => decide (r ≤ 2) && decide (f ≤ 2) && decide (3 ≤ m), Segment.hibernants),
   (fun r f m => decide (r ≤ 2) && decide (f ≤ 2) && decide (m ≤ 2), Segment.perdus)]

/-- Strict top-to-bottom first-match evaluation of the spec rule table. -/
def firstMatchSegment (r f m : ℕ) : Segment :=
  match specRules.find? (fun p => p.1 r f m) with
  | some p => p.2
  | none => Segment.autres

end Segments

namespace Cohortes

/-- Cohort age of a transaction: whole months between the invoice month and
the acquisition month; with absolute month indices the pandas formula
`(inv_year - acq_year) * 12 + (inv_month - acq_month)` is the plain
difference. -/
def cohortAge (t : Txn) : ℤ :=
  t.invoiceMonth - t.acquisitionMonth

/-- Distinct customers of one acquisition cohort at one cohort age
(the `groupby(AcquisitionMonth, CohortAge).CustomerID.nunique()`). -/
def distinctCustomers (txs : List Txn) (acq age : ℤ) : ℕ :=
  ((txs.filter (fun t => t.acquisitionMonth = acq ∧ cohortAge t = age)).map
    (·.customerId)).dedup.length

/-- Cohort size: the distinct customer count of the cohort at age 0. -/
def cohortSize (txs : List Txn) (acq : ℤ) : ℕ :=
  distinctCustomers txs acq 0

/-- Retention rate cell of the cohort matrix: distinct customers at the
given age divided by the cohort size. -/
def retentionRate (txs : List Txn) (acq age : ℤ) : ℚ :=
  (distinctCustomers txs acq age : ℚ) / (cohortSize txs acq : ℚ)

/-- The inline RFM recency of the cohortes page: it subtracts the customer
max from the dataset max without adding the one-day offset. -/
def rfmRecency (txs : List Txn) (c : ℕ) : ℤ :=
  listMaxZ (txs.map (·.invoiceDate)) -
    listMaxZ ((txs.filter (fun t => t.customerId = c)).map (·.invoiceDate))

/-- The inline RFM frequency of the cohortes page: pandas `count` on
`InvoiceNo`, i.e. the raw row count, not the distinct invoice count. -/
def rfmFrequency (txs : List Txn) (c : ℕ) : ℕ :=
  (txs.filter (fun t => t.customerId = c)).length

end Cohortes

namespace SpecRfm

/-- Recency as the spec section 3 words it: days between (max invoice date
in the snapshot plus one day) and the customer own max invoice date. -/
def recencyDays (txs : List Txn) (c : ℕ) : ℤ :=
  (listMaxZ (txs.map (·.invoiceDate)) + 1) -
    listMaxZ ((txs.filter (fun t => t.customerId = c)).map (·.invoiceDate))

/-- Frequency as the spec section 3 words it: count of distinct invoice
identifiers of the customer. -/
def frequencyDistinct (txs : List Txn) (c : ℕ) : ℕ :=
  ((txs.filter (fun t => t.customerId = c)).map (·.invoiceNo)).dedup.length

end SpecRfm

/-- Snapshot with a single customer and a single transaction: every RFM
dimension has a single distinct value, so all six quantile edges coincide. -/
def c1Txs : List Txn := [⟨1, 10, 5, 0, 0, 100, false⟩]

/-- Single customer with two rows sharing one invoice identifier; used to
separate distinct-invoice counting from raw row counting. -/
def c6Txs : List Txn :=
  [⟨1, 7, 0, 0, 0, 5, false⟩, ⟨1, 7, 3, 0, 0, 5, false⟩]

/-- Two customers of cohort 0, the second purchasing again one month after
acquisition. -/
def c7Txs : List Txn :=
  [⟨1, 10, 0, 0, 0, 100, false⟩, ⟨2, 11, 3, 1, 0, 50, false⟩]

/-- Dataset of the section-8 example: customer 1 spends 100 in one
transaction, customer 2 spends 300 across three transactions, no returns. -/
def exampleTxs : List Txn :=
  [⟨1, 10, 0, 0, 0, 100, false⟩,
   ⟨2, 11, 0, 0, 0, 100, false⟩,
   ⟨2, 12, 0, 0, 0, 100, false⟩,
   ⟨2, 13, 0, 0, 0, 100, false⟩]

/-- Margin 10 percent, no discount, no retention change. -/
def exampleParams : Scenario.Params := ⟨10, 0, 0⟩

/-- Single transaction that is a return: the subset is nonempty but every
row is a return, so the baseline retention is 0. -/
def allReturnsTxs : List Txn := [⟨1, 10, 0, 0, 0, -100, true⟩]

namespace Load

/-- Tabular input file before the load-time normalization: each `Option`
field is a column that may be absent. The invoice number column is
abstracted to its only load-time use, the per-row flag of whether the
identifier starts with the letter C. -/
structure RawFrame where
  amountNet : Option (List ℚ)
  amount : Option (List ℚ)
  quantity : Option (List ℤ)
  unitPrice : Option (List ℚ)
  invoiceNoStartsC : Option (List Bool)
  isReturn : Option (List Bool)
deriving DecidableEq, Repr

/-- AmountNet branch of the overview `load_data`: keep `AmountNet` when
present; else copy `Amount`; else multiply `Quantity` by `UnitPrice`, a
KeyError when either of those columns is also absent. -/
def overviewAmountNetStep (f : RawFrame) : Except PdError RawFrame :=
  match f.amountNet with
  | some _ => Except.ok f
  | none =>
    match f.amount with
    | some a => Except.ok { f with amountNet := some a }
    | none =>
      match f.quantity, f.unitPrice with
      | some q, some u =>
          Except.ok
            { f with amountNet := some (List.zipWith (fun qi ui => (qi : ℚ) * ui) q u) }
      | _, _ => Except.error PdError.keyError

/-- Overview `load_data`: the AmountNet fallback chain, then, when
`IsReturn` is absent and `InvoiceNo` is present, `IsReturn` is silently
set to the leading-C flags. -/
def overviewLoadData (f : RawFrame) : Except PdError RawFrame :=
  (overviewAmountNetStep f).bind fun f1 =>
    match f1.isReturn, f1.invoiceNoStartsC with
    | none, some flags => Except.ok { f1 with isReturn := some flags }
    | _, _ => Except.ok f1

/-- The `load_data` of the scenario page and of the segments page: only the
single fallback from `Amount` exists; when `AmountNet` and `Amount` are
both absent, the access to `Amount` raises a KeyError. -/
def scenarioLoadData (f : RawFrame) : Except PdError RawFrame :=
  match f.amountNet with
  | some _ => Except.ok f
  | none =>
    match f.amount with
    | some a => Except.ok { f with amountNet := some a }
    | none => Except.error PdError.keyError

end Load

namespace Overview

/-- Distinct customer count of the frame. -/
def activeClients (txs : List Txn) : ℕ :=
  (txs.map (·.customerId)).dedup.length

/-- Overview baseline CLV: total net revenue over active customers. -/
def clvBaseline (txs : List Txn) : ℚ :=
  (txs.map (·.amountNet)).sum / (activeClients txs : ℚ)

/-- The overview `compute_rfm`: one record per customer with recency,
frequency and monetary, same formulas as the segments page, with no
positivity filter and no scoring. -/
def computeRfm (txs : List Txn) : List (ℕ × ℤ × ℕ × ℚ) :=
  (custIds txs).map fun c =>
    (c, Segments.recency txs c, Segments.frequency txs c, custSum txs c)

/-- Number of RFM records. -/
def rfmCount (txs : List Txn) : ℕ :=
  (computeRfm txs).length

/-- Rows whose cohort age is nonnegative (the `CohortAge >= 0` filter). -/
def nonNegAgeRows (txs : List Txn) : List Txn :=
  txs.filter (fun t => 0 ≤ Cohortes.cohortAge t)

/-- Mean over the distinct cohort ages of the per-age revenue totals, 0 on
an empty frame. -/
def avgRevPerAge (txs : List Txn) : ℚ :=
  let sums := ((txs.map Cohortes.cohortAge).dedup).map
    (fun a => ((txs.filter (fun t => Cohortes.cohortAge t = a)).map (·.amountNet)).sum)
  if sums = [] then 0 else sums.sum / (sums.length : ℚ)

/-- First purchase date of a customer within the given frame. -/
def firstPurchase (txs : List Txn) (c : ℕ) : ℤ :=
  listMinZ ((txs.filter (fun t => t.customerId = c)).map (·.invoiceDate))

/-- Rows dated within 90 days of their customer first purchase. -/
def within90 (txs : List Txn) : List Txn :=
  txs.filter (fun t => t.invoiceDate ≤ firstPurchase txs t.customerId + 90)

/-- The `compute_north_star` function: revenue of the 90-day rows divided
by the number of customers owning such a row, 0 when there are none. -/
def northStar (txs : List Txn) : ℚ :=
  let d := within90 txs
  let n := (d.map (·.customerId)).dedup.length
  if n = 0 then 0 else (d.map (·.amountNet)).sum / (n : ℚ)

/-- Result record of `compute_kpis`. -/
structure Kpis where
  activeClients : ℕ
  clvBaseline : ℚ
  rfmCount : ℕ
  avgRevPerAge : ℚ
  northStar : ℚ
deriving DecidableEq, Repr

/-- The `compute_kpis` function in source order: active clients, baseline
CLV and the RFM count are computed on the incoming frame; only then are the
rows with negative cohort age dropped, and the revenue-per-age average and
the north star are computed on the filtered frame. -/
def computeKpis (txs : List Txn) : Kpis :=
  let active := (txs.map (·.customerId)).dedup.length
  let clv := (txs.map (·.amountNet)).sum / (active : ℚ)
  let rfmN := (computeRfm txs).length
  let dfF := txs.filter (fun t => 0 ≤ Cohortes.cohortAge t)
  let sums := ((dfF.map Cohortes.cohortAge).dedup).map
    (fun a => ((dfF.filter (fun t => Cohortes.cohortAge t = a)).map (·.amountNet)).sum)
  let avg := if sums = [] then 0 else sums.sum / (sums.length : ℚ)
  ⟨active, clv, rfmN, avg, northStar dfF⟩

end Overview

/-- Frame missing both `AmountNet` and `Amount` while `Quantity` and
`UnitPrice` are present. -/
def c9NoAmountFrame : Load.RawFrame :=
  ⟨none, none, some [2], some [3], none, some [false]⟩

/-- Frame missing `IsReturn` while `InvoiceNo` is present (one row whose
identifier starts with C). -/
def c9NoIsReturnFrame : Load.RawFrame :=
  ⟨some [5], none, none, none, some [true], none⟩

/-- Two customers: the first with cohort age 0 and amount 10, the second
with a negative cohort age (invoice month before the stored acquisition
month) and amount 5. -/
def c10Txs : List Txn :=
  [⟨1, 10, 0, 0, 0, 10, false⟩, ⟨2, 11, 0, 0, 1, 5, false⟩]

theorem insertLe_ne_nil {α : Type} [LinearOrder α] (x : α) (l : List α) :
    insertLe x l ≠ [] := by
  cases l with
  | nil => simp [insertLe]
  | cons y ys =>
    simp only [insertLe]
    split <;> simp

theorem sortLe_eq_nil_iff {α : Type} [LinearOrder α] (l : List α) :
    sortLe l = [] ↔ l = [] := by
  cases l with
  | nil => simp [sortLe]
  | cons x xs => simp [sortLe, insertLe_ne_nil]

theorem custIds_ne_nil {txs : List Txn} (h : txs ≠ []) : custIds txs ≠ [] := by
  simp [custIds, sortLe_eq_nil_iff, List.dedup_eq_nil, List.map_eq_nil_iff, h]

theorem map_adjTxn_zero (txs : List Txn) :
    txs.map (Scenario.adjTxn Scenario.zeroParams) = txs := by
  induction txs with
  | nil => rfl
  | cons a l ih =>
    have hadj : Scenario.adjTxn Scenario.zeroParams a = a := by
      have : Scenario.amountAdj Scenario.zeroParams a.amountNet = a.amountNet := by
        rw [Scenario.amountAdj]
        norm_num [Scenario.zeroParams]
      simp [Scenario.adjTxn, this]
    simp [hadj, ih]

/-- C2: on an empty transaction subset the baseline retention is the numpy
result of 0 / 0 (NaN, modelled `none`) rather than 0, and that
division-by-zero result propagates silently into both scenario KPIs: the
code neither fails explicitly nor guards with a no-data condition. -/
theorem c2_empty_subset_nan_propagates (p : Scenario.Params) :
    Scenario.retentionBaseline ([] : List Txn) = none ∧
    Scenario.retentionBaseline ([] : List Txn) ≠ some 0 ∧
    Scenario.clvScenario p [] = none ∧
    Scenario.caScenario p [] = none := by
  refine ⟨rfl, by simp [Scenario.retentionBaseline], ?_, ?_⟩ <;>
    simp [Scenario.clvScenario, Scenario.caScenario, Scenario.retentionFactor,
      Scenario.retentionBaseline, Scenario.clvBaseline, custIds, sortLe]

/-- C3: the scenario transform multiplies each net amount by
`(1 + marge_pct/100) * (1 - discount_pct/100)`; `ca_scenario` is the total
of adjusted amounts times the retention factor; on the section-8 example
(customers spending 100 and 300, margin 10 percent, no discount, no
retention change) the retention factor is 1, `ca_scenario` is 440 and
`clv_scenario` is 220. -/
theorem c3_scenario_transform_and_example :
    (∀ (p : Scenario.Params) (x : ℚ),
        Scenario.amountAdj p x = x * (1 + p.margePct / 100) * (1 - p.discountPct / 100)) ∧
    (∀ (p : Scenario.Params) (txs : List Txn),
        Scenario.caScenario p txs =
          (Scenario.retentionFactor p txs).map
            fun r => ((txs.map (Scenario.adjTxn p)).map (·.amountNet)).sum * r) ∧
    Scenario.retentionFactor exampleParams exampleTxs = some 1 ∧
    Scenario.caScenario exampleParams exampleTxs = some 440 ∧
    Scenario.clvScenario exampleParams exampleTxs = some 220 := by
  refine ⟨fun p x => rfl, fun p txs => rfl, ?_, ?_, ?_⟩ <;>
    simp [Scenario.retentionFactor, Scenario.retentionBaseline,
      Scenario.retentionScenario, Scenario.caScenario, Scenario.clvScenario,
      Scenario.caBaseline, Scenario.clvBaseline, Scenario.groupSums,
      Scenario.adjTxn, Scenario.amountAdj, exampleParams, exampleTxs,
      custIds, custSum, sortLe, insertLe, List.dedup, List.filter] <;>
    norm_num

/-- C4 counterexample: a nonempty subset consisting of a single return
(net amount -100). The baseline CLV is -100, but with all sliders at zero
the baseline retention is 0, the retention ratio is numpy 0 / 0 (NaN), and
the scenario CLV is NaN rather than the baseline value; likewise the
scenario revenue is not the baseline revenue. -/
theorem c4_counterexample :
    Scenario.clvScenario Scenario.zeroParams allReturnsTxs ≠
      Scenario.clvBaseline allReturnsTxs ∧
    Scenario.clvBaseline allReturnsTxs = some (-100) ∧
    Scenario.caScenario Scenario.zeroParams allReturnsTxs ≠
      some (Scenario.caBaseline allReturnsTxs) := by
  refine ⟨?_, ?_, ?_⟩ <;>
    simp [Scenario.retentionFactor, Scenario.retentionBaseline,
      Scenario.retentionScenario, Scenario.caScenario, Scenario.clvScenario,
      Scenario.caBaseline, Scenario.clvBaseline, Scenario.groupSums,
      Scenario.adjTxn, Scenario.amountAdj, Scenario.zeroParams, allReturnsTxs,
      custIds, custSum, sortLe, insertLe, List.dedup, List.filter]

/-- C4 amended: for every transaction subset containing at least one
non-return row (so the baseline retention is positive), the scenario with
`marge_pct = 0`, `discount_pct = 0`, `retention_pct = 0` reproduces the
baseline KPIs exactly. -/
theorem c4_zero_params_reproduce_baseline (txs : List Txn)
    (h : ∃ t ∈ txs, t.isReturn = false) :
    Scenario.clvScenario Scenario.zeroParams txs = Scenario.clvBaseline txs ∧
    Scenario.caScenario Scenario.zeroParams txs =
      some (Scenario.caBaseline txs) := by
  obtain ⟨t0, ht0, hret⟩ := h
  have hne : txs ≠ [] := List.ne_nil_of_mem ht0
  have hlen : txs.length ≠ 0 := by
    simpa [List.length_eq_zero] using hne
  have hlenpos : (0 : ℚ) < (txs.length : ℚ) := by
    exact_mod_cast Nat.pos_of_ne_zero hlen
  -- the count of non-returns is positive and at most the length
  have hcount : 0 < txs.countP (fun t => !t.isReturn) := by
    rw [List.countP_pos_iff]
    exact ⟨t0, ht0, by simp [hret]⟩
  have hcountle : txs.countP (fun t => !t.isReturn) ≤ txs.length :=
    List.countP_le_length _
  set rb : ℚ := (txs.countP (fun t => !t.isReturn) : ℚ) / (txs.length : ℚ) with hrb
  have hrbpos : 0 < rb := by
    apply div_pos _ hlenpos
    exact_mod_cast hcount
  have hrble : rb ≤ 1 := by
    rw [hrb, div_le_one hlenpos]
    exact_mod_cast hcountle
  have hbase : Scenario.retentionBaseline txs = some rb := by
    simp [Scenario.retentionBaseline, hlen, hrb]
  have hfactor : Scenario.retentionFactor Scenario.zeroParams txs = some 1 := by
    rw [Scenario.retentionFactor, hbase]
    have hsc : Scenario.retentionScenario rb (0 : ℚ) = rb := by
      rw [Scenario.retentionScenario]
      norm_num [min_eq_left hrble]
    simp [hrbpos.ne', Scenario.zeroParams, hsc, div_self hrbpos.ne']
  have hmap : txs.map (Scenario.adjTxn Scenario.zeroParams) = txs :=
    map_adjTxn_zero txs
  constructor
  · rw [Scenario.clvScenario, hmap, hfactor]
    have hc : custIds txs ≠ [] := custIds_ne_nil hne
    rw [Scenario.clvBaseline]
    simp [hc]
  · rw [Scenario.caScenario, hmap, hfactor]
    simp

/-- C4 witness: the amended theorem applied to the section-8 example
dataset, which contains a non-return row. -/
theorem c4_witness :
    Scenario.clvScenario Scenario.zeroParams exampleTxs =
      Scenario.clvBaseline exampleTxs ∧
    Scenario.caScenario Scenario.zeroParams exampleTxs =
      some (Scenario.caBaseline exampleTxs) :=
  c4_zero_params_reproduce_baseline exampleTxs
    ⟨⟨1, 10, 0, 0, 0, 100, false⟩, by decide, rfl⟩

/-- C8: for every baseline retention value and every retention percentage in
the slider range -50 to 20, the scenario retention equals
`min 1 (rb * (1 + pct/100))`, never exceeds 1, and is returned unchanged
(no lower clamp) whenever the unclamped formula value is below 1. -/
theorem c8_retention_clamp (rb pct : ℚ) (_h1 : -50 ≤ pct) (_h2 : pct ≤ 20) :
    Scenario.retentionScenario rb pct = min 1 (rb * (1 + pct / 100)) ∧
    Scenario.retentionScenario rb pct ≤ 1 ∧
    (rb * (1 + pct / 100) < 1 →
      Scenario.retentionScenario rb pct = rb * (1 + pct / 100)) := by
  refine ⟨min_comm _ _, min_le_right _ _, fun hlt => min_eq_left hlt.le⟩

/-- C8 witness: baseline retention one half with a 10 percent increase stays
below the cap and is returned unchanged. -/
theorem c8_witness :
    Scenario.retentionScenario (1/2) 10 = min 1 ((1/2 : ℚ) * (1 + 10 / 100)) ∧
    Scenario.retentionScenario (1/2) 10 ≤ 1 ∧
    ((1/2 : ℚ) * (1 + 10 / 100) < 1 →
      Scenario.retentionScenario (1/2) 10 = (1/2 : ℚ) * (1 + 10 / 100)) :=
  c8_retention_clamp (1/2) 10 (by norm_num) (by norm_num)

/-- C1: on a snapshot whose dimensions have too few distinct values to form
5 quantile buckets (here a single customer, so all six edges coincide),
`compute_rfm` does not degrade to fewer score levels: after pandas drops
the duplicate edges, the fixed five-entry label list fails the
labels-versus-edges check and qcut raises a `ValueError`, aborting the
computation. -/
theorem c1_qcut_duplicate_edges_raise :
    Segments.computeRfmScored c1Txs = Except.error PdError.valueError := by
  norm_num [Segments.computeRfmScored, Segments.positiveCustomers,
    Segments.monetary, Segments.recency, Segments.frequency,
    Segments.snapshotDate, Segments.qcut5, Segments.qcutEdges,
    Segments.quantileK, custIds, custSum, sortLe, insertLe, List.dedup,
    List.range_succ, List.filter, listMaxZ, c1Txs]

/-- C5: for all integer scores in 1..5 the `assign_segment` cascade equals
the strict top-to-bottom first-match evaluation of the ten spec rules, and
the three spec examples hold: (5,5,5) is Champions, (1,1,1) is Perdus, and
(3,3,3) is Besoin d Attention (rule 6) rather than Autres. -/
theorem c5_segment_rules (r f m : ℕ) (hr1 : 1 ≤ r) (hr5 : r ≤ 5)
    (hf1 : 1 ≤ f) (hf5 : f ≤ 5) (hm1 : 1 ≤ m) (hm5 : m ≤ 5) :
    Segments.assignSegment r f m = Segments.firstMatchSegment r f m ∧
    Segments.assignSegment 5 5 5 = Segments.Segment.champions ∧
    Segments.assignSegment 1 1 1 = Segments.Segment.perdus ∧
    Segments.assignSegment 3 3 3 = Segments.Segment.besoinDAttention := by
  refine ⟨?_, rfl, rfl, rfl⟩
  interval_cases r <;> interval_cases f <;> interval_cases m <;> rfl

/-- C5 witness: the rule-table agreement instantiated at the triple 5,5,5. -/
theorem c5_witness :
    Segments.assignSegment 5 5 5 = Segments.firstMatchSegment 5 5 5 ∧
    Segments.assignSegment 5 5 5 = Segments.Segment.champions ∧
    Segments.assignSegment 1 1 1 = Segments.Segment.perdus ∧
    Segments.assignSegment 3 3 3 = Segments.Segment.besoinDAttention :=
  c5_segment_rules 5 5 5 (by norm_num) (by norm_num) (by norm_num)
    (by norm_num) (by norm_num) (by norm_num)

/-- C6 counterexample: on a snapshot with one customer owning two rows of
the same invoice, the inline RFM of the cohortes page (also cited by the
claim) computes frequency 2 (row count) where the distinct invoice count is
1, and recency 0 where the snapshot-plus-one-day formula gives 1. -/
theorem c6_cohortes_rfm_diverges :
    Cohortes.rfmFrequency c6Txs 1 = 2 ∧
    SpecRfm.frequencyDistinct c6Txs 1 = 1 ∧
    Cohortes.rfmFrequency c6Txs 1 ≠ SpecRfm.frequencyDistinct c6Txs 1 ∧
    Cohortes.rfmRecency c6Txs 1 = 0 ∧
    SpecRfm.recencyDays c6Txs 1 = 1 ∧
    Cohortes.rfmRecency c6Txs 1 ≠ SpecRfm.recencyDays c6Txs 1 := by
  refine ⟨?_, ?_, ?_, ?_, ?_, ?_⟩ <;> decide

/-- C6 amended: in `compute_rfm` (segments and overview pages) every
customer record has recency equal to days between (snapshot max invoice
date plus one day) and the customer own max invoice date, and frequency
equal to the count of distinct invoice identifiers; the cohortes-page
inline RFM does not satisfy these formulas. -/
theorem c6_compute_rfm_formulas (txs : List Txn) (c : ℕ)
    (_h : c ∈ custIds txs) :
    Segments.recency txs c = SpecRfm.recencyDays txs c ∧
    Segments.frequency txs c = SpecRfm.frequencyDistinct txs c :=
  ⟨rfl, rfl⟩

/-- C6 witness: the formulas instantiated for the only customer of the
two-row snapshot. -/
theorem c6_witness :
    Segments.recency c6Txs 1 = SpecRfm.recencyDays c6Txs 1 ∧
    Segments.frequency c6Txs 1 = SpecRfm.frequencyDistinct c6Txs 1 :=
  c6_compute_rfm_formulas c6Txs 1 (by decide)

/-- C7: in every retention matrix, each acquisition cohort present (its
age-0 distinct customer count, the cohort size, is positive; cohorts
without an age-0 row are dropped by the inner merge) has retention exactly
1 at cohort age 0, because the cell divides the age-0 count by itself. -/
theorem c7_retention_one_at_age_zero (txs : List Txn) (acq : ℤ)
    (h : 0 < Cohortes.cohortSize txs acq) :
    Cohortes.retentionRate txs acq 0 = 1 := by
  rw [Cohortes.retentionRate, Cohortes.cohortSize]
  exact div_self (by exact_mod_cast h.ne')

/-- C7 witness: the cohort of month 0 in the two-customer dataset has size
1 and retention 1 at age 0. -/
theorem c7_witness : Cohortes.retentionRate c7Txs 0 0 = 1 :=
  c7_retention_one_at_age_zero c7Txs 0 (by decide)

/-- C9 counterexample: with `AmountNet` and `Amount` both absent but
`Quantity` and `UnitPrice` present, the scenario and segments loaders do
not derive the product: they raise a KeyError; and with `IsReturn` absent,
the overview loader silently substitutes it from the invoice identifiers,
a substitution beyond the documented AmountNet fallback. -/
theorem c9_counterexample :
    Load.scenarioLoadData c9NoAmountFrame = Except.error PdError.keyError ∧
    Load.overviewLoadData c9NoIsReturnFrame =
      Except.ok { c9NoIsReturnFrame with isReturn := some [true] } := by
  exact ⟨rfl, rfl⟩

/-- C9 amended: the overview loader applies the fallback chain AmountNet,
then Amount, then Quantity times UnitPrice, and additionally silently
derives IsReturn from the invoice identifiers when IsReturn is absent
(and substitutes nothing when InvoiceNo is absent too); the scenario and
segments loaders only apply the Amount fallback and raise a KeyError when
Amount is also absent. -/
theorem c9_load_fallback_chains (v a : List ℚ) (q : List ℤ) (u : List ℚ)
    (b : List Bool) (amtO qtyO : Option (List ℚ)) (qO : Option (List ℤ))
    (invO : Option (List Bool)) (irO : Option (List Bool)) :
    Load.scenarioLoadData ⟨some v, amtO, qO, qtyO, invO, irO⟩ =
      Except.ok ⟨some v, amtO, qO, qtyO, invO, irO⟩ ∧
    Load.scenarioLoadData ⟨none, some a, qO, qtyO, invO, irO⟩ =
      Except.ok ⟨some a, some a, qO, qtyO, invO, irO⟩ ∧
    Load.scenarioLoadData ⟨none, none, qO, qtyO, invO, irO⟩ =
      Except.error PdError.keyError ∧
    Load.overviewAmountNetStep ⟨none, none, some q, some u, invO, irO⟩ =
      Except.ok
        ⟨some (List.zipWith (fun qi ui => (qi : ℚ) * ui) q u), none,
          some q, some u, invO, irO⟩ ∧
    Load.overviewAmountNetStep ⟨none, none, none, some u, invO, irO⟩ =
      Except.error PdError.keyError ∧
    Load.overviewLoadData ⟨some v, amtO, qO, qtyO, some b, none⟩ =
      Except.ok ⟨some v, amtO, qO, qtyO, some b, some b⟩ ∧
    Load.overviewLoadData ⟨some v, amtO, qO, qtyO, none, none⟩ =
      Except.ok ⟨some v, amtO, qO, qtyO, none, none⟩ := by
  exact ⟨rfl, rfl, rfl, rfl, rfl, rfl, rfl⟩

/-- C10: `compute_kpis` computes the active client count, the baseline CLV
and the RFM count on the unfiltered frame, and the revenue-per-age average
and the north star on the frame with negative cohort ages removed; on the
concrete frame where customer 2 has a negative-age row of amount 5, that
row still contributes to the first three KPIs (2 actives, CLV 15/2, 2 RFM
records) but not to the last two (both 10, from the single age-0 row). -/
theorem c10_filter_order (txs : List Txn) :
    Overview.computeKpis txs =
      ⟨Overview.activeClients txs, Overview.clvBaseline txs,
        Overview.rfmCount txs,
        Overview.avgRevPerAge (Overview.nonNegAgeRows txs),
        Overview.northStar (Overview.nonNegAgeRows txs)⟩ ∧
    Overview.computeKpis c10Txs = ⟨2, 15 / 2, 2, 10, 10⟩ := by
  constructor
  · rfl
  · norm_num [Overview.computeKpis, Overview.computeRfm, Overview.northStar,
      Overview.within90, Overview.firstPurchase, Cohortes.cohortAge,
      custIds, custSum, sortLe, insertLe, List.dedup, List.filter,
      listMinZ, c10Txs]
